import Mathlib

/-!
Verification of the oci-frugal power scheduler core against its
natural-language specification. The definitions below are shallow
embeddings of the Go sources: the action bitset package, the AnykeyNL
schedule evaluator (`parseSchedule`, `ActiveSchedule`,
`dayOfMonthOverride`), the resource handler (`HandleResource`,
`handleCompute`, `handleDbSystem`, `handleAnalyticsInstance`,
`getDbNodes`), the tag-controller worker dispatch decision, and the
orchestrator region resolution of `run`. Go strings are Lean strings;
string helpers (`strings.Split`, `strings.TrimSpace`, `strconv.Atoi`,
etc.) are re-implemented structurally so that all definitions compute.
-/

/- ### Go string helpers -/

/-- Go `unicode.IsSpace` for the Latin-1 range (the characters
`strings.TrimSpace` strips). -/
def goIsSpace (c : Char) : Bool :=
  c = ' ' || c = '\t' || c = '\n' || (c = Char.ofNat 11) ||
  (c = Char.ofNat 12) || c = '\r' || (c = Char.ofNat 0x85) ||
  (c = Char.ofNat 0xA0)

/-- Trim a character list on both ends, as Go `strings.TrimSpace`. -/
def trimChars (l : List Char) : List Char :=
  ((l.dropWhile goIsSpace).reverse.dropWhile goIsSpace).reverse

/-- Go `strings.TrimSpace`. -/
def goTrim (s : String) : String :=
  ⟨trimChars s.data⟩

/-- Split a character list on a separator character; Go
`strings.Split` semantics (splitting the empty string yields one empty
field). -/
def splitChars (sep : Char) : List Char → List (List Char)
  | [] => [[]]
  | c :: rest =>
    if c = sep then
      [] :: splitChars sep rest
    else
      match splitChars sep rest with
      | [] => [[c]]
      | h :: t => (c :: h) :: t

/-- Go `strings.Split(s, sep)` for a one-character separator. -/
def goSplit (s : String) (sep : Char) : List String :=
  (splitChars sep s.data).map (fun l => ⟨l⟩)

/-- Cut the string at the first `#`, as `sch = sch[:idx]` after
`strings.Index(sch, "#")` in `parseSchedule`. -/
def stripComment (s : String) : String :=
  ⟨s.data.takeWhile (fun c => c ≠ '#')⟩

/-- Go `strings.HasPrefix(s, p)` for a one-character p. -/
def headIs (s : String) (c : Char) : Bool :=
  match s.data with
  | [] => false
  | d :: _ => d = c

/-- Go `strings.HasSuffix(s, p)` for a one-character p. -/
def lastIs (s : String) (c : Char) : Bool :=
  match s.data.getLast? with
  | none => false
  | some d => d = c

/-- Go `strings.Join(l, ",")`. -/
def joinComma : List String → String
  | [] => ""
  | [x] => x
  | x :: rest => x ++ "," ++ joinComma rest

/-- Decimal value of a digit list (most significant first). -/
def digitsToNat (l : List Char) : Nat :=
  l.foldl (fun acc c => acc * 10 + (c.toNat - '0'.toNat)) 0

/-- Go `strconv.Atoi`: optional sign, then decimal digits only, with
the 64-bit `int` range check (out of range is an error). -/
def atoi (s : String) : Option Int :=
  match s.data with
  | [] => none
  | chars =>
    let signed : Int × List Char :=
      match chars with
      | '-' :: rest => (-1, rest)
      | '+' :: rest => (1, rest)
      | _ => (1, chars)
    match signed with
    | (sign, ds) =>
      if ds.isEmpty then none
      else if ds.all Char.isDigit then
        let n : Int := sign * (digitsToNat ds : Int)
        if -(2 ^ 63) ≤ n ∧ n ≤ 2 ^ 63 - 1 then some n else none
      else none

/- ### Action algebra (package action, current variant: the block
whose comments `00000001` / `00000010` agree with the code) -/

namespace action

/-- Go `type Action uint8`; modelled as `Nat` with values under 256. -/
abbrev Action : Type := Nat

/-- Constant `NULL_ACTION Action = 0`. -/
def NULL_ACTION : Action := 0

/-- Constant `OFF Action = 1 << 0`. -/
def OFF : Action := 1 <<< 0

/-- Constant `ON Action = 1 << 1`. -/
def ON : Action := 1 <<< 1

/-- Constant `ALL Action = 255`. -/
def ALL : Action := 255

/-- Source `func ToAction(i int) Action` returns `Action(i)` — Go `int` to
`uint8` conversion keeps the low 8 bits. -/
def ToAction (i : Int) : Action :=
  (i.emod 256).toNat

/-- Source `func Compare(a Action, b Action) bool` returns `(a & b) > 0`. -/
def Compare (a b : Action) : Bool :=
  decide (0 < Nat.land a b)

/-- The superseded draft of the constants block
(src/unnamed/part_009 lines 251-257): `OFF Action = 0 << 1`,
contradicting the `00000001` comment beside it. -/
def OFF_draft : Action := 0 <<< 1

/-- Draft `ON Action = 0 << 2` from the same superseded block,
contradicting the `00000010` comment beside it. -/
def ON_draft : Action := 0 <<< 2

end action

/- ### Schedule evaluator (src/src/pkg/scheduler/anykeynl.go) -/

/-- Scheduler errors from src/src/pkg/scheduler/errors.go (the
`Reason` string of `ErrInvalidToken` is dropped; it only carries the
`strconv` message). -/
inductive SchedErr : Type
  | invalidInput : SchedErr
  | invalidTokenCount (expected got : Nat) : SchedErr
  | invalidToken (token : String) : SchedErr
  | unsupportedToken (token : String) : SchedErr
deriving DecidableEq, Repr

/-- The time components captured by
`NewAnykeyNLSchedulerWithLocation` at construction: hour, day of week
name, day of month, nth occurrence of the weekday within the month. -/
structure AnykeyNLScheduler : Type where
  hour : Nat
  dow : String
  dom : Nat
  dnr : Nat
deriving DecidableEq, Repr

/-- Membership in `_WEEKDAYS`. -/
def isWeekdayName (d : String) : Bool :=
  d = "Monday" || d = "Tuesday" || d = "Wednesday" || d = "Thursday" ||
  d = "Friday"

/-- Membership in `_WEEKENDS`. -/
def isWeekendName (d : String) : Bool :=
  d = "Saturday" || d = "Sunday"

/-- Source `parseSchedule(sch string, hour int)`: strip inline comment, trim,
return null action on empty, split on commas, trim tokens, enforce 24
tokens, then decode the token at `hour`. -/
def parseSchedule (sch : String) (hour : Nat) : action.Action × Option SchedErr :=
  let act := action.NULL_ACTION
  let sch1 := goTrim (stripComment sch)
  if sch1 = "" then (act, none)
  else
    let tokens := (goSplit sch1 ',').map goTrim
    if tokens.length ≠ 24 then
      (act, some (SchedErr.invalidTokenCount 24 tokens.length))
    else
      let want := tokens.getD hour ""
      if want = "" || want = "*" then (act, none)
      else if headIs want '(' && lastIs want ')' then
        (act, some (SchedErr.unsupportedToken want))
      else
        match atoi want with
        | none => (act, some (SchedErr.invalidToken want))
        | some v =>
          if v ≤ 0 then (action.OFF, none)
          else if v = 1 then (action.ON, none)
          else (action.ToAction (if v > 127 then 127 else v), none)

/-- Method `Evaluate` on a string input parses it directly at the captured
hour. -/
def AnykeyNLScheduler.Evaluate (ts : AnykeyNLScheduler) (s : String) :
    action.Action × Option SchedErr :=
  parseSchedule s ts.hour

/-- The token list `parseSchedule` derives from a schedule string
(comment stripped, trimmed, split on commas, tokens trimmed). -/
def tokenizeSchedule (s : String) : List String :=
  (goSplit (goTrim (stripComment s)) ',').map goTrim

/-- Go map lookup `t[key]` over the tag map, modelled as an
association list (first binding wins, as map keys are unique). -/
def lookupTag (tags : List (String × String)) (key : String) : Option String :=
  match tags.find? (fun p => p.fst = key) with
  | none => none
  | some p => some p.snd

/-- The condition `v, ok := t[key]; ok && strings.TrimSpace(v) != ""`
used by every rule of `ActiveSchedule`: the key is present with a
non-blank value. -/
def tagMatch (tags : List (String × String)) (key : String) : Option String :=
  match lookupTag tags key with
  | none => none
  | some v => if goTrim v = "" then none else some v

/-- Go `strings.SplitN(p, ":", 2)` restricted to the two-piece case:
`none` when `p` has no colon (`len(kv) != 2`). -/
def splitN2Colon (p : String) : Option (String × String) :=
  if p.data.contains ':' then
    some (⟨p.data.takeWhile (fun c => c ≠ ':')⟩,
          ⟨(p.data.dropWhile (fun c => c ≠ ':')).tail⟩)
  else none

/-- The `for _, p := range parts` loop of `dayOfMonthOverride`: the
first pair whose day equals `today` decides — an empty token aborts
with no override, a non-empty token yields 24 repetitions. -/
def domLoop (today : Nat) : List String → Option String
  | [] => none
  | p :: rest =>
    let p1 := goTrim p
    if p1 = "" then domLoop today rest
    else
      match splitN2Colon p1 with
      | none => domLoop today rest
      | some (dstr, val) =>
        let d1 := goTrim dstr
        let v1 := goTrim val
        match atoi d1 with
        | none => domLoop today rest
        | some d =>
          if d = (today : Int) then
            if v1 = "" then none
            else some (joinComma (List.replicate 24 v1))
          else domLoop today rest

/-- Source `dayOfMonthOverride(v string, today int)`: parse a
`"1:0,15:1"`-style value and, when the current day matches, return the
24-repetition schedule (`none` models the `("", false)` returns). -/
def dayOfMonthOverride (v : String) (today : Nat) : Option String :=
  let v1 := goTrim v
  if v1 = "" then none
  else domLoop today (goSplit v1 ',')

/-- Source `ActiveSchedule(tags)` for the string-map case: the sequential
rule applications of the source, each later non-blank match
overwriting `active`. -/
def AnykeyNLScheduler.ActiveSchedule (ts : AnykeyNLScheduler)
    (tags : List (String × String)) : String :=
  let a0 := ""
  let a1 := match tagMatch tags "AnyDay" with
    | some v => v
    | none => a0
  let a2 :=
    if isWeekdayName ts.dow then
      match tagMatch tags "WeekDay" with
      | some v => v
      | none => a1
    else if isWeekendName ts.dow then
      match tagMatch tags "Weekend" with
      | some v => v
      | none => a1
    else a1
  let a3 := match tagMatch tags ts.dow with
    | some v => v
    | none => a2
  let a4 := match tagMatch tags (ts.dow ++ toString ts.dnr) with
    | some v => v
    | none => a3
  let a5 := match tagMatch tags "DayOfMonth" with
    | some v =>
      match dayOfMonthOverride v ts.dom with
      | some rep => rep
      | none => a4
    | none => a4
  a5

/- ### Spec-side definitions (stated from the specification text, for
comparison with the source embeddings above) -/

/-- Modelled from the spec: the per-token decision mapping of §4.1 —
empty or `*` is the null action; `(...)` is unsupported; a non-integer
is invalid; `v ≤ 0` is OFF, `v = 1` is ON, `v > 1` is the custom
action `min(v, 127)`. -/
def specTokenMap (tok : String) : action.Action × Option SchedErr :=
  if tok = "" || tok = "*" then (action.NULL_ACTION, none)
  else if headIs tok '(' && lastIs tok ')' then
    (action.NULL_ACTION, some (SchedErr.unsupportedToken tok))
  else
    match atoi tok with
    | none => (action.NULL_ACTION, some (SchedErr.invalidToken tok))
    | some v =>
      if v ≤ 0 then (action.OFF, none)
      else if v = 1 then (action.ON, none)
      else (action.ToAction (min v 127), none)

/-- Modelled from the spec: the five priority rules of §4.1 in order,
each yielding its matched schedule string when it applies. -/
def specRuleMatches (ts : AnykeyNLScheduler)
    (tags : List (String × String)) : List (Option String) :=
  [ tagMatch tags "AnyDay",
    if isWeekdayName ts.dow then tagMatch tags "WeekDay"
    else if isWeekendName ts.dow then tagMatch tags "Weekend"
    else none,
    tagMatch tags ts.dow,
    tagMatch tags (ts.dow ++ toString ts.dnr),
    (tagMatch tags "DayOfMonth").bind
      (fun v => dayOfMonthOverride v ts.dom) ]

/-- Modelled from the spec: walk the rules in priority order, a later
match overriding an earlier one, so the result is the value of the
last matching rule — the empty string when no rule matches. -/
def specActiveSchedule (ts : AnykeyNLScheduler)
    (tags : List (String × String)) : String :=
  (specRuleMatches ts tags).foldl (fun acc o => o.getD acc) ""

/- ### Resource handler (src/src/pkg/controller/handler/handler.go) -/

/-- Constant `DEFAULT_INTERVAL = 15 * time.Second`, in seconds. -/
def DEFAULT_INTERVAL : Nat := 15

/-- Constant `MAX_INTERVAL = 3 * time.Minute`, in seconds. -/
def MAX_INTERVAL : Nat := 3 * 60

/-- Constant `DEFAULT_MAX_REQUESTS int = 8`. -/
def DEFAULT_MAX_REQUESTS : Nat := 8

/-- Search summary `rs.ResourceSummary` as the handler reads it: identifier,
resource type (a `*string`, so possibly nil) and lifecycle state. -/
structure ResourceSummary : Type where
  identifier : String
  resourceType : Option String
  lifecycleState : String
deriving DecidableEq, Repr

namespace task

/-- Type `Task`: pair of the decided action and the resource. -/
structure Task : Type where
  Resource : ResourceSummary
  Action : action.Action
deriving DecidableEq, Repr

/-- Constructor `NewTask`. -/
def NewTask (a : action.Action) (r : ResourceSummary) : Task :=
  ⟨r, a⟩

end task

/-- Start or stop, as in `core.InstanceActionActionStart` /
`core.InstanceActionActionStop` and the database analogues. -/
inductive LifeDirection : Type
  | start : LifeDirection
  | stop : LifeDirection
deriving DecidableEq, Repr

/-- One control-plane call issued through a kind client. -/
inductive CPCall : Type
  | instanceAction (id : String) (dir : LifeDirection) : CPCall
  | dbNodeAction (id : String) (dir : LifeDirection) : CPCall
  | stopAnalyticsInstance (id : String) : CPCall
  | startAnalyticsInstance (id : String) : CPCall
deriving DecidableEq, Repr

/-- The cloud SDK as the handler sees it: each control-plane call
either succeeds or returns an error string, and the nested DbNode
search either returns summaries or fails. -/
structure Sdk : Type where
  call : CPCall → Except String Unit
  searchDbNodes : String → Except String (List ResourceSummary)

/-- Issue one call and mirror the Go
`resp, err := client.X(ctx, req); if err != nil { return err }`
shape: the call is recorded, its error (if any) is returned. -/
def issueCall (sdk : Sdk) (c : CPCall) : List CPCall × Option String :=
  match sdk.call c with
  | Except.error e => ([c], some e)
  | Except.ok _ => ([c], none)

/-- Source `handleCompute`: state-guarded start/stop of an instance; the
no-op path logs and returns nil. -/
def handleCompute (sdk : Sdk) (t : task.Task) : List CPCall × Option String :=
  if t.Action = action.OFF ∧ (t.Resource.lifecycleState ≠ "STOPPED" ∧
      t.Resource.lifecycleState ≠ "STOPPING" ∧
      t.Resource.lifecycleState ≠ "TERMINATING" ∧
      t.Resource.lifecycleState ≠ "TERMINATED") then
    issueCall sdk (CPCall.instanceAction t.Resource.identifier LifeDirection.stop)
  else if t.Action = action.ON ∧ (t.Resource.lifecycleState ≠ "RUNNING" ∧
      t.Resource.lifecycleState ≠ "STARTING" ∧
      t.Resource.lifecycleState ≠ "TERMINATING" ∧
      t.Resource.lifecycleState ≠ "TERMINATED") then
    issueCall sdk (CPCall.instanceAction t.Resource.identifier LifeDirection.start)
  else
    ([], none)

/-- Source `getDbNodes`: nested structured search for the child nodes of a
DbSystem; on search error the error is logged and the empty list is
returned. -/
def getDbNodes (sdk : Sdk) (id : String) : List ResourceSummary :=
  match sdk.searchDbNodes id with
  | Except.error _ => []
  | Except.ok items => items

/-- The `for _, node := range nodes` loop of `handleDbSystem`: each
node is guarded like compute; a failed node action is recorded and the
loop continues with the siblings. -/
def dbNodeLoop (sdk : Sdk) (act : action.Action) :
    List ResourceSummary → List CPCall × List String
  | [] => ([], [])
  | node :: rest =>
    let step : List CPCall × List String :=
      if act = action.OFF ∧ (node.lifecycleState ≠ "STOPPED" ∧
          node.lifecycleState ≠ "STOPPING" ∧
          node.lifecycleState ≠ "TERMINATING" ∧
          node.lifecycleState ≠ "TERMINATED") then
        match sdk.call (CPCall.dbNodeAction node.identifier LifeDirection.stop) with
        | Except.error e => ([CPCall.dbNodeAction node.identifier LifeDirection.stop],
            ["stop dbnode " ++ node.identifier ++ " failed: " ++ e])
        | Except.ok _ => ([CPCall.dbNodeAction node.identifier LifeDirection.stop], [])
      else if act = action.ON ∧ (node.lifecycleState ≠ "RUNNING" ∧
          node.lifecycleState ≠ "STARTING" ∧
          node.lifecycleState ≠ "TERMINATING" ∧
          node.lifecycleState ≠ "TERMINATED") then
        match sdk.call (CPCall.dbNodeAction node.identifier LifeDirection.start) with
        | Except.error e => ([CPCall.dbNodeAction node.identifier LifeDirection.start],
            ["start dbnode " ++ node.identifier ++ " failed: " ++ e])
        | Except.ok _ => ([CPCall.dbNodeAction node.identifier LifeDirection.start], [])
      else ([], [])
    let rec' := dbNodeLoop sdk act rest
    (step.1 ++ rec'.1, step.2 ++ rec'.2)

/-- Go `strings.Join`-style aggregation standing in for
`errors.Join(errs...)`. -/
def joinErrs : List String → String
  | [] => ""
  | [x] => x
  | x :: rest => x ++ "; " ++ joinErrs rest

/-- Source `handleDbSystem`: expand the DbSystem into its nodes via the
nested search, act on each node, and return an aggregate error only
when at least one node action failed. -/
def handleDbSystem (sdk : Sdk) (t : task.Task) : List CPCall × Option String :=
  let nodes := getDbNodes sdk t.Resource.identifier
  let r := dbNodeLoop sdk t.Action nodes
  (r.1,
    if r.2.isEmpty then none
    else some ("dbSystem " ++ t.Resource.identifier ++
      ": one or more DB node actions failed: " ++ joinErrs r.2))

/-- Source `handleAnalyticsInstance`: guarded activate/deactivate; Analytics
uses `Inactive` and `RUNNING`/`DELETED` in its guards. -/
def handleAnalyticsInstance (sdk : Sdk) (t : task.Task) :
    List CPCall × Option String :=
  if t.Action = action.OFF ∧ t.Resource.lifecycleState ≠ "Inactive" ∧
      t.Resource.lifecycleState ≠ "DELETED" then
    issueCall sdk (CPCall.stopAnalyticsInstance t.Resource.identifier)
  else if t.Action = action.ON ∧ t.Resource.lifecycleState ≠ "RUNNING" ∧
      t.Resource.lifecycleState ≠ "DELETED" then
    issueCall sdk (CPCall.startAnalyticsInstance t.Resource.identifier)
  else
    ([], none)

/-- Source `HandleResource`: nil-type check, token acquisition under a
`MAX_INTERVAL` timeout context (`h.tp.Acquire(ctx)` — the source
discards the acquisition outcome, so the `acquired` argument is never
consulted), then the dispatch switch; kinds without a case fall
through to `return nil`. -/
def HandleResource (sdk : Sdk) (acquired : Bool) (t : task.Task) :
    List CPCall × Option String :=
  match t.Resource.resourceType with
  | none => ([], some "nil resource")
  | some rt =>
    if rt = "Instance" then handleCompute sdk t
    else if rt = "DbSystem" then handleDbSystem sdk t
    else if rt = "AnalyticsInstance" then handleAnalyticsInstance sdk t
    else ([], none)

/- ### Tag-controller worker (src/src/pkg/controller/tagcontroller.go) -/

/-- A search result item as the worker consumes it: identifier,
resource type and the defined-tags map (namespace, then key, then
value). -/
structure SearchItem : Type where
  identifier : String
  resourceType : String
  definedTags : List (String × List (String × String))
deriving DecidableEq, Repr

/-- Lookup `item.DefinedTags[tc.tagNamespace]`: a missing namespace gives the
nil map, over which every lookup misses. -/
def namespaceTags (item : SearchItem) (ns : String) : List (String × String) :=
  match item.definedTags.find? (fun p => p.fst = ns) with
  | none => []
  | some p => p.snd

/-- The controller state the worker reads: tag namespace, the
scheduler, and the controller's allowed-action set `tc.action`. -/
structure TagController : Type where
  tagNamespace : String
  scheduler : AnykeyNLScheduler
  action : action.Action
deriving DecidableEq, Repr

/-- What one worker iteration does with an item. -/
inductive WorkerOutcome : Type
  | dispatched (act : action.Action) (item : SearchItem) : WorkerOutcome
  | skipped : WorkerOutcome
  | unsupported : WorkerOutcome
deriving DecidableEq, Repr

/-- The per-item body of `worker`: resolve the active schedule from
the item's tags under the controller's namespace (the map case cannot
error), evaluate it (an evaluation error is logged at warn and the
returned action — always the null action — is still used), skip when
the controller's allowed actions are incompatible, and otherwise
dispatch only the `Instance` kind to the handler. -/
def workerStep (tc : TagController) (item : SearchItem) : WorkerOutcome :=
  let tags := namespaceTags item tc.tagNamespace
  let activeSchedule := tc.scheduler.ActiveSchedule tags
  let r := tc.scheduler.Evaluate activeSchedule
  let act := r.1
  if action.Compare tc.action act then
    if item.resourceType = "Instance" then
      WorkerOutcome.dispatched act item
    else
      WorkerOutcome.unsupported
  else
    WorkerOutcome.skipped

/- ### Orchestrator region resolution (`run` in src/src/main.go) -/

/-- The region list `run` iterates over when launching controllers,
with `none` modelling `os.Exit(1)`. Mirrors the source faithfully,
including the `regions, err := idClient.GetRegions()` short variable
declaration that shadows the outer `var regions []string`: the
subscribed-regions result (`getRegionsResult`) only ever reaches the
inner variable, so after the else block the outer list is still
empty. -/
def runRegions (cfgRegion : String) (getRegionsResult : List String) :
    Option (List String) :=
  let regions : List String := []
  if cfgRegion ≠ "" then
    some (regions ++ [cfgRegion])
  else
    let innerRegions := getRegionsResult
    if innerRegions.length = 0 then
      none
    else
      some regions

/- ### Concrete collaborators used by witnesses and counterexamples -/

/-- An SDK whose every control-plane call and nested search
succeeds. -/
def sdkOk : Sdk :=
  ⟨fun _ => Except.ok (), fun _ => Except.ok []⟩

/-- An SDK whose nested DbNode search fails. -/
def sdkSearchFail : Sdk :=
  ⟨fun _ => Except.ok (), fun _ => Except.error "search failed"⟩

/- ### Claims -/

/-- C1: for every 24-token schedule string and hour in 0..23,
`parseSchedule` (and hence `Evaluate` on a string) selects the token
at the hour and maps it per the spec: empty or `*` gives the null
action with no error, a parenthesized token is unsupported, a
non-integer is invalid, an integer `v ≤ 0` gives OFF, `v = 1` gives
ON, and `v > 1` gives the custom action `min(v, 127)`. -/
theorem c1_parse_schedule_maps_token (s : String) (hour : Nat)
    (hh : hour < 24) (ht : (tokenizeSchedule s).length = 24) :
    parseSchedule s hour = specTokenMap ((tokenizeSchedule s).getD hour "") := by
  have hne : goTrim (stripComment s) ≠ "" := by
    intro he
    unfold tokenizeSchedule at ht
    rw [he] at ht
    exact absurd ht (by decide)
  have hmin : ∀ v : Int, (if v > 127 then (127 : Int) else v) = min v 127 := by
    intro v
    rcases le_or_lt v 127 with h6 | h6
    · rw [if_neg (not_lt.mpr h6), min_eq_left h6]
    · rw [if_pos h6, min_eq_right h6.le]
  unfold parseSchedule specTokenMap
  unfold tokenizeSchedule at ht ⊢
  rw [if_neg hne, if_neg (fun hc => hc ht)]
  simp only [hmin]

/-- C1 witness: a schedule of 24 ones evaluated at hour 10. -/
theorem c1_parse_schedule_maps_token_witness :
    (10 : Nat) < 24 ∧
    (tokenizeSchedule "1,1,1,1,1,1,1,1,1,1,1,1,1,1,1,1,1,1,1,1,1,1,1,1").length = 24 ∧
    parseSchedule "1,1,1,1,1,1,1,1,1,1,1,1,1,1,1,1,1,1,1,1,1,1,1,1" 10 =
      specTokenMap
        ((tokenizeSchedule "1,1,1,1,1,1,1,1,1,1,1,1,1,1,1,1,1,1,1,1,1,1,1,1").getD 10 "") :=
  ⟨by decide, by decide,
    c1_parse_schedule_maps_token "1,1,1,1,1,1,1,1,1,1,1,1,1,1,1,1,1,1,1,1,1,1,1,1"
      10 (by decide) (by decide)⟩

/-- Helper for C2: a one-scrutinee option match selecting the matched
value over the fallback is `Option.getD`. -/
theorem optMatchGetD (o : Option String) (a : String) :
    (match o with | some v => v | none => a) = o.getD a := by
  cases o <;> rfl

/-- C2: for every tag map and scheduler state fixed at construction,
`ActiveSchedule` returns the value of the last matching rule in the
priority order AnyDay, WeekDay (Mon-Fri) or Weekend (Sat-Sun), the
weekday name, the weekday with its nth-in-month index, and DayOfMonth
(adopted as 24 repetitions of the matching pair's token), a later
non-blank match overriding an earlier one, with the empty string when
no rule matches — stated as equality with the spec-side
`specActiveSchedule`. -/
theorem c2_active_schedule_last_match (ts : AnykeyNLScheduler)
    (tags : List (String × String)) :
    ts.ActiveSchedule tags = specActiveSchedule ts tags := by
  unfold AnykeyNLScheduler.ActiveSchedule specActiveSchedule specRuleMatches
  dsimp only [List.foldl]
  cases h5 : tagMatch tags "DayOfMonth" <;>
    simp [optMatchGetD, h5, ite_apply,
      apply_ite (fun o : Option String => Option.getD o)]

/-- C3 counterexample: the empty schedule string has token count 1,
yet `parseSchedule` returns the null action with no error instead of
the claimed `InvalidTokenCount` — the empty string never reaches the
count check. -/
theorem c3_empty_schedule_counterexample :
    (tokenizeSchedule "").length = 1 ∧
    parseSchedule "" 10 = (action.NULL_ACTION, none) := by
  decide

/-- C3 amended: a schedule whose token count is not 24 yields
`InvalidTokenCount` with expected 24 and the actual count — except
when comment stripping and trimming leave the empty string, which
returns the null action with no error before the count check. -/
theorem c3_token_count_amended (s : String) (hour : Nat)
    (h : (tokenizeSchedule s).length ≠ 24) :
    parseSchedule s hour =
      (if goTrim (stripComment s) = "" then (action.NULL_ACTION, none)
       else (action.NULL_ACTION,
         some (SchedErr.invalidTokenCount 24 (tokenizeSchedule s).length))) := by
  unfold parseSchedule
  unfold tokenizeSchedule at h ⊢
  by_cases he : goTrim (stripComment s) = ""
  · simp [he]
  · simp only [he, if_false, if_neg he]
    rw [if_pos h]

/-- C3 witness: a three-token schedule yields
`InvalidTokenCount` expected 24, got 3. -/
theorem c3_token_count_amended_witness :
    parseSchedule "1,1,1" 5 =
      (action.NULL_ACTION, some (SchedErr.invalidTokenCount 24 3)) :=
  (c3_token_count_amended "1,1,1" 5 (by decide)).trans (by decide)

/-- C4: the action type is an 8-bit bitset with `NULL_ACTION = 0`,
`OFF = 1`, `ON = 2`, `ALL = 0xFF`, OFF and ON on distinct bits
(`OFF & ON = 0`), and `Compare` holds exactly when the bitwise and is
nonzero. -/
theorem c4_action_bitset_compare :
    action.NULL_ACTION = 0 ∧ action.OFF = 1 ∧ action.ON = 2 ∧
    action.ALL = 0xFF ∧ Nat.land action.OFF action.ON = 0 ∧
    action.OFF < 256 ∧ action.ON < 256 ∧ action.ALL < 256 ∧
    (∀ i : Int, action.ToAction i < 256) ∧
    (∀ a b : action.Action, action.Compare a b = true ↔ Nat.land a b ≠ 0) := by
  refine ⟨rfl, rfl, rfl, rfl, by decide, by decide, by decide, by decide, ?_, ?_⟩
  · intro i
    show (Int.toNat (Int.emod i 256) : Nat) < (256 : Nat)
    have h2 : Int.emod i 256 < 256 := Int.emod_lt_of_pos i (by norm_num)
    omega
  · intro a b
    simp [action.Compare, Nat.pos_iff_ne_zero]

/-- C5: when the evaluator's decision on the resolved active schedule
is the null action (which it also is whenever `Evaluate` returns an
error), the worker skips the item and never invokes a resource
handler. -/
theorem c5_null_action_never_dispatched (tc : TagController)
    (item : SearchItem)
    (h : (tc.scheduler.Evaluate
            (tc.scheduler.ActiveSchedule (namespaceTags item tc.tagNamespace))).1 =
          action.NULL_ACTION) :
    workerStep tc item = WorkerOutcome.skipped := by
  unfold workerStep
  dsimp only []
  rw [h]
  have hz : Nat.land tc.action 0 = 0 := Nat.and_zero tc.action
  simp [action.Compare, action.NULL_ACTION, hz]

/-- C5 witness: an item with no schedule tags evaluates to the null
action and is skipped even by a controller allowing all actions. -/
theorem c5_null_action_never_dispatched_witness :
    workerStep ⟨"Schedule", ⟨10, "Monday", 11, 2⟩, action.ALL⟩
      ⟨"i1", "Instance", []⟩ = WorkerOutcome.skipped :=
  c5_null_action_never_dispatched ⟨"Schedule", ⟨10, "Monday", 11, 2⟩, action.ALL⟩
    ⟨"i1", "Instance", []⟩ (by decide)

/-- C6: an Instance task with action OFF in a stopped, stopping,
terminating or terminated state — or with action ON in a running,
starting, terminating or terminated state — takes the no-op path:
zero control-plane calls and a nil error. -/
theorem c6_compute_guard_noop (sdk : Sdk) (acq : Bool) (t : task.Task)
    (hk : t.Resource.resourceType = some "Instance")
    (h : (t.Action = action.OFF ∧
            t.Resource.lifecycleState ∈
              (["STOPPED", "STOPPING", "TERMINATING", "TERMINATED"] : List String)) ∨
         (t.Action = action.ON ∧
            t.Resource.lifecycleState ∈
              (["RUNNING", "STARTING", "TERMINATING", "TERMINATED"] : List String))) :
    HandleResource sdk acq t = ([], none) := by
  have hc : handleCompute sdk t = ([], none) := by
    unfold handleCompute
    rcases h with ⟨ha, hs⟩ | ⟨ha, hs⟩ <;>
      simp only [List.mem_cons, List.mem_singleton, List.not_mem_nil, or_false] at hs <;>
      rcases hs with h1 | h1 | h1 | h1 <;>
      simp [ha, h1, action.OFF, action.ON]
  unfold HandleResource
  rw [hk]
  simpa using hc

/-- C6 witness: dispatching OFF to a STOPPED instance is a no-op
returning nil. -/
theorem c6_compute_guard_noop_witness :
    (⟨⟨"i1", some "Instance", "STOPPED"⟩, action.OFF⟩ : task.Task).Resource.resourceType
        = some "Instance" ∧
    HandleResource sdkOk true ⟨⟨"i1", some "Instance", "STOPPED"⟩, action.OFF⟩ =
      ([], none) :=
  ⟨rfl, c6_compute_guard_noop sdkOk true
    ⟨⟨"i1", some "Instance", "STOPPED"⟩, action.OFF⟩ rfl (Or.inl ⟨rfl, by decide⟩)⟩

/-- C7 counterexample: with token acquisition timed out (`acquired =
false`), `HandleResource` still issues the control-plane stop call for
a running instance and returns nil rather than a rate-limit error. -/
theorem c7_acquire_timeout_counterexample :
    HandleResource sdkOk false
      (task.NewTask action.OFF
        ⟨"ocid1.instance.oc1..inst1", some "Instance", "RUNNING"⟩) =
      ([CPCall.instanceAction "ocid1.instance.oc1..inst1" LifeDirection.stop], none) := by
  decide

/-- C7 amended: `HandleResource` acquires a token under a
`MAX_INTERVAL` (3 minute) timeout context, but the acquisition
outcome is discarded, so dispatch proceeds identically whether or not
acquisition succeeded and no rate-limit error is ever returned. -/
theorem c7_acquire_discarded_amended :
    MAX_INTERVAL = 180 ∧
    (∀ (sdk : Sdk) (b : Bool) (t : task.Task),
      HandleResource sdk b t = HandleResource sdk true t) :=
  ⟨rfl, fun _ _ _ => rfl⟩

/-- C8 counterexample: an AutonomousDatabase task with a compatible
action (OFF) in a non-guarded state (AVAILABLE) produces zero
control-plane calls — the dispatch switch has no case for it. -/
theorem c8_autonomous_not_dispatched_counterexample :
    HandleResource sdkOk true
      (task.NewTask action.OFF
        ⟨"ocid1.autonomousdatabase.oc1..adb1", some "AutonomousDatabase", "AVAILABLE"⟩) =
      ([], none) := by
  decide

/-- C8 amended: `HandleResource` dispatches Instance to the compute
handler, DbSystem to the per-node database handler and
AnalyticsInstance to the analytics handler; AutonomousDatabase and
IntegrationInstance have no case and fall through to nil with no
control-plane call. -/
theorem c8_dispatch_amended (sdk : Sdk) (acq : Bool) (t : task.Task) :
    (t.Resource.resourceType = some "Instance" →
      HandleResource sdk acq t = handleCompute sdk t) ∧
    (t.Resource.resourceType = some "DbSystem" →
      HandleResource sdk acq t = handleDbSystem sdk t) ∧
    (t.Resource.resourceType = some "AnalyticsInstance" →
      HandleResource sdk acq t = handleAnalyticsInstance sdk t) ∧
    (t.Resource.resourceType = some "AutonomousDatabase" →
      HandleResource sdk acq t = ([], none)) ∧
    (t.Resource.resourceType = some "IntegrationInstance" →
      HandleResource sdk acq t = ([], none)) := by
  refine ⟨?_, ?_, ?_, ?_, ?_⟩ <;>
    intro h <;> unfold HandleResource <;> rw [h] <;> simp

/-- C8 witness: an IntegrationInstance task falls through to nil. -/
theorem c8_dispatch_amended_witness :
    HandleResource sdkOk true
      (task.NewTask action.ON
        ⟨"ocid1.integrationinstance.oc1..int1", some "IntegrationInstance", "INACTIVE"⟩) =
      ([], none) :=
  (c8_dispatch_amended sdkOk true
    (task.NewTask action.ON
      ⟨"ocid1.integrationinstance.oc1..int1", some "IntegrationInstance", "INACTIVE"⟩)).2.2.2.2
    rfl

/-- C9: evaluation of the orchestrator's region resolution. With no
explicit region and a non-empty subscribed list the launched-regions
list is empty (the inner short variable declaration shadows the outer
`regions`), with an explicit region it is that singleton, and an
empty subscribed list exits fatally. -/
theorem c9_run_regions_shadowing :
    runRegions "" ["us-ashburn-1"] = some [] ∧
    runRegions "us-phoenix-1" ["us-ashburn-1"] = some ["us-phoenix-1"] ∧
    runRegions "" [] = none := by
  refine ⟨rfl, by decide, rfl⟩

/-- C10: when the nested DbNode search fails, `getDbNodes` returns the
empty list and `handleDbSystem` performs zero node actions and returns
nil — the search error is never propagated. -/
theorem c10_dbnode_search_error_swallowed (sdk : Sdk) (t : task.Task)
    (e : String)
    (hs : sdk.searchDbNodes t.Resource.identifier = Except.error e) :
    getDbNodes sdk t.Resource.identifier = [] ∧
    handleDbSystem sdk t = ([], none) := by
  have hg : getDbNodes sdk t.Resource.identifier = [] := by
    simp [getDbNodes, hs]
  exact ⟨hg, by simp [handleDbSystem, hg, dbNodeLoop]⟩

/-- C10 witness: a DbSystem task whose node search fails yields no
node actions and a nil error. -/
theorem c10_dbnode_search_error_swallowed_witness :
    getDbNodes sdkSearchFail "db1" = [] ∧
    handleDbSystem sdkSearchFail ⟨⟨"db1", some "DbSystem", "AVAILABLE"⟩, action.OFF⟩ =
      ([], none) :=
  c10_dbnode_search_error_swallowed sdkSearchFail
    ⟨⟨"db1", some "DbSystem", "AVAILABLE"⟩, action.OFF⟩ "search failed" rfl
